import Mathlib

/-!
Verification of the Atheron context-aggregation layer.

Shallow embedding of `src/lib/space-apis.ts` (provider clients) and the
chat route (`getSpaceContext`, `ATHEY_SYSTEM_PROMPT`, `POST`).

Modelling conventions:
* A JS number appearing in provider payloads is modelled as an exact
  decimal `DecNum` (integer numerator over a power-of-ten scale); the
  concrete payloads of the claims are all exact decimals.
* A network fetch is modelled by its outcome `FetchOutcome`: a 2xx
  response whose body parsed to the expected shape, a non-2xx status,
  a network failure, or a 2xx response whose body failed to parse.
  In the source every non-success outcome throws inside the `try` block
  and is caught by the local `catch`.
* Each provider client is a total function of its fetch outcome (and its
  credential, where the source reads one) returning a `ProviderCall`:
  the request URL actually issued (`none` when the client returned before
  fetching), the `console.error` log lines, and the returned value.
* `Promise.all` timing is modelled by `Timed`: a value together with the
  duration after which it resolves; the join resolves at the maximum of
  the durations with all values, which is the semantics of `Promise.all`
  over independently running promises.
-/

namespace Atheron

/-- Outcome of one `fetch` call, seen at the client: success carries the
payload parsed to the expected shape; the other constructors are the
non-success transport outcomes the source maps to its catch branch. -/
inductive FetchOutcome (α : Type) where
  | success : α → FetchOutcome α
  | httpError : Nat → FetchOutcome α
  | networkFailure : FetchOutcome α
  | malformedBody : FetchOutcome α
deriving DecidableEq

/-- `true` exactly on a 2xx response with a well-formed body. -/
def FetchOutcome.isSuccess {α : Type} : FetchOutcome α → Bool
  | .success _ => true
  | _ => false

/-- Result of invoking one provider client: the URL of the outbound call
when one was made, the `console.error` lines emitted, and the value the
client returned. -/
structure ProviderCall (α : Type) where
  requestUrl : Option String
  logs : List String
  result : α
deriving DecidableEq

/-- Exact decimal number: `num / 10 ^ scale`.  Models the JS numbers of
the provider payloads relevant to the claims. -/
structure DecNum where
  num : Int
  scale : Nat
deriving DecidableEq

/-- Left-pad a digit string with zeros to width `w`. -/
def padZeros (w : Nat) (s : String) : String :=
  String.mk (List.replicate (w - s.length) '0') ++ s

/-- `Number.prototype.toFixed f` on an exact decimal: round
`|x| * 10 ^ f` to the nearest integer, ties upward (the larger `n` of the
ECMAScript algorithm), then print sign, integer part and `f` fraction
digits. -/
def decToFixed (x : DecNum) (f : Nat) : String :=
  let sign := if x.num < 0 then "-" else ""
  let a := x.num.natAbs
  let n := (2 * a * 10 ^ f + 10 ^ x.scale) / (2 * 10 ^ x.scale)
  let ip := n / 10 ^ f
  let fp := n % 10 ^ f
  if f = 0 then sign ++ toString ip
  else sign ++ toString ip ++ "." ++ padZeros f (toString fp)

/-- Plain decimal rendering of a `DecNum` (used only inside request URLs,
mirroring JS template interpolation of a number). -/
def decToString (x : DecNum) : String :=
  let sign := if x.num < 0 then "-" else ""
  let a := x.num.natAbs
  if x.scale = 0 then sign ++ toString a
  else sign ++ toString (a / 10 ^ x.scale) ++ "." ++ padZeros x.scale (toString (a % 10 ^ x.scale))

/-- Proleptic-Gregorian civil date `(year, month, day)` from a count of
days since 1970-01-01 (the standard era-based algorithm used to model
`Date`). -/
def civilFromDays (days : Nat) : Nat × Nat × Nat :=
  let z := days + 719468
  let era := z / 146097
  let doe := z % 146097
  let yoe := (doe - doe / 1460 + doe / 36524 - doe / 146096) / 365
  let y := yoe + era * 400
  let doy := doe - (365 * yoe + yoe / 4 - yoe / 100)
  let mp := (5 * doy + 2) / 153
  let d := doy - (153 * mp + 2) / 5 + 1
  let m := if mp < 10 then mp + 3 else mp - 9
  (if m ≤ 2 then y + 1 else y, m, d)

/-- `Date.prototype.toISOString` for a nonnegative epoch-millisecond
instant before year 10000: `yyyy-mm-ddThh:mm:ss.mmmZ`. -/
def isoFromMillis (ms : Nat) : String :=
  let ymd := civilFromDays (ms / 86400000)
  padZeros 4 (toString ymd.1) ++ "-" ++ padZeros 2 (toString ymd.2.1) ++ "-" ++
    padZeros 2 (toString ymd.2.2) ++ "T" ++
    padZeros 2 (toString (ms / 3600000 % 24)) ++ ":" ++
    padZeros 2 (toString (ms / 60000 % 60)) ++ ":" ++
    padZeros 2 (toString (ms / 1000 % 60)) ++ "." ++
    padZeros 3 (toString (ms % 1000)) ++ "Z"

/-- Lexicographic order on character lists (agrees with chronological
order on ISO-8601 UTC date strings); used to state the ordering parts of
the launch-list claims. -/
def lexLe : List Char → List Char → Bool
  | [], _ => true
  | _ :: _, [] => false
  | a :: as, b :: bs => if a = b then lexLe as bs else decide (a.val < b.val)

/-! ## Payload types (from the `interface` declarations of space-apis.ts) -/

structure SatellitePosition where
  satid : Nat
  satname : String
  satlatitude : DecNum
  satlongitude : DecNum
  sataltitude : DecNum
  azimuth : DecNum
  elevation : DecNum
  timestamp : Nat
deriving DecidableEq

structure SatelliteInfo where
  satid : Nat
  satname : String
  transactionscount : Nat
deriving DecidableEq

structure SatelliteAbove where
  satid : Nat
  satname : String
  intDesignator : String
  launchDate : String
  satlat : DecNum
  satlng : DecNum
  satalt : DecNum
deriving DecidableEq

structure LaunchPatch where
  small : Option String
  large : Option String
deriving DecidableEq

structure LaunchLinks where
  patch : LaunchPatch
  webcast : Option String
  wikipedia : Option String
  article : Option String
deriving DecidableEq

structure SpaceXLaunch where
  id : String
  name : String
  date_utc : String
  date_local : String
  success : Option Bool
  upcoming : Bool
  details : Option String
  links : LaunchLinks
  rocket : String
  flight_number : Nat
deriving DecidableEq

structure SpaceXRocket where
  id : String
  name : String
  rtype : String
  active : Bool
  stages : Nat
  boosters : Nat
  cost_per_launch : Nat
  success_rate_pct : Nat
  first_flight : String
  country : String
  company : String
  description : String
deriving DecidableEq

structure ISROSpacecraft where
  id : String
  name : String
deriving DecidableEq

structure ISROLaunchVehicle where
  id : Nat
  name : String
deriving DecidableEq

structure ISROCentre where
  id : Nat
  name : String
  place : String
  state : String
deriving DecidableEq

structure NasaAPOD where
  title : String
  explanation : String
  url : String
  hdurl : Option String
  media_type : String
  date : String
  copyright : Option String
deriving DecidableEq

/-- Body of a 2xx N2YO positions response.  The `positions` field is
optional because the source guards it with `?.` — a well-formed JSON body
may still lack it. -/
structure N2yoPositionsPayload where
  info : SatelliteInfo
  positions : Option (List SatellitePosition)
deriving DecidableEq

/-- Body of a 2xx N2YO above response. -/
structure N2yoAbovePayload where
  category : String
  satcount : Nat
  above : List SatelliteAbove
deriving DecidableEq

/-- Body of a 2xx ISRO response: the expected list field, `none` when the
JSON object lacks it (the source guards with `|| []`). -/
def IsroPayload (α : Type) : Type := Option (List α)

/-! ## Provider clients (space-apis.ts) -/

def N2YO_BASE_URL : String := "https://api.n2yo.com/rest/v1/satellite"

def SPACEX_BASE_URL : String := "https://api.spacexdata.com/v4"

def ISRO_BASE_URL : String := "https://isro.vercel.app/api"

def NASA_BASE_URL : String := "https://api.nasa.gov"

/-- URL built by `getSatellitePosition` (observer location hardcoded to
`0/0/0` in the source). -/
def n2yoPositionsUrl (noradId : Nat) (seconds : Nat) (apiKey : String) : String :=
  N2YO_BASE_URL ++ "/positions/" ++ toString noradId ++ "/0/0/0/" ++
    toString seconds ++ "&apiKey=" ++ apiKey

/-- URL built by `getSatellitesAbove` (observer altitude hardcoded to 0). -/
def n2yoAboveUrl (lat lng : DecNum) (searchRadius categoryId : Nat) (apiKey : String) : String :=
  N2YO_BASE_URL ++ "/above/" ++ decToString lat ++ "/" ++ decToString lng ++ "/0/" ++
    toString searchRadius ++ "/" ++ toString categoryId ++ "&apiKey=" ++ apiKey

/-- URL built by `getNasaAPOD`. -/
def nasaApodUrl (apiKey : String) : String :=
  NASA_BASE_URL ++ "/planetary/apod?api_key=" ++ apiKey

/-- JS `a || b` on an environment string: an unset variable and the empty
string are both falsy. -/
def jsOrElse (a : Option String) (b : String) : String :=
  match a with
  | none => b
  | some s => if s = "" then b else s

/-- JS `xs.slice(-k)` for a nonnegative number `k`: the last `k` elements,
except that `k = 0` (since `-0 === 0`) yields the whole array. -/
def jsSliceLast {α : Type} (k : Nat) (xs : List α) : List α :=
  if k = 0 then xs else xs.drop (xs.length - k)

/-- `getSatellitePosition(noradId, seconds)`: returns `null` without
fetching when `N2YO_API_KEY` is unset; otherwise returns the parsed body
on success and `null` on any failed transport outcome. -/
def getSatellitePosition (noradId : Nat) (seconds : Nat) (apiKey : Option String)
    (resp : FetchOutcome N2yoPositionsPayload) : ProviderCall (Option N2yoPositionsPayload) :=
  match apiKey with
  | none => ⟨none, ["N2YO_API_KEY not set"], none⟩
  | some key =>
    match resp with
    | .success p => ⟨some (n2yoPositionsUrl noradId seconds key), [], some p⟩
    | _ => ⟨some (n2yoPositionsUrl noradId seconds key), ["Error fetching satellite position:"], none⟩

/-- `getSatellitesAbove(lat, lng, searchRadius, categoryId)`. -/
def getSatellitesAbove (lat lng : DecNum) (searchRadius categoryId : Nat)
    (apiKey : Option String) (resp : FetchOutcome N2yoAbovePayload) :
    ProviderCall (Option N2yoAbovePayload) :=
  match apiKey with
  | none => ⟨none, ["N2YO_API_KEY not set"], none⟩
  | some key =>
    match resp with
    | .success p => ⟨some (n2yoAboveUrl lat lng searchRadius categoryId key), [], some p⟩
    | _ => ⟨some (n2yoAboveUrl lat lng searchRadius categoryId key),
            ["Error fetching satellites above:"], none⟩

/-- `getISSPosition()`: `getSatellitePosition(25544)` (seconds defaulted
to 1), then `result?.positions?.[0] || null`. -/
def getISSPosition (apiKey : Option String) (resp : FetchOutcome N2yoPositionsPayload) :
    ProviderCall (Option SatellitePosition) :=
  let call := getSatellitePosition 25544 1 apiKey resp
  ⟨call.requestUrl, call.logs,
    match call.result with
    | none => none
    | some r => ((r.positions.getD []).head?)⟩

/-- `getLatestSpaceXLaunch()`. -/
def getLatestSpaceXLaunch (resp : FetchOutcome SpaceXLaunch) :
    ProviderCall (Option SpaceXLaunch) :=
  match resp with
  | .success l => ⟨some (SPACEX_BASE_URL ++ "/launches/latest"), [], some l⟩
  | _ => ⟨some (SPACEX_BASE_URL ++ "/launches/latest"), ["Error fetching SpaceX launch:"], none⟩

/-- `getUpcomingSpaceXLaunches(limit)`: `launches.slice(0, limit)` on
success, `[]` on failure. -/
def getUpcomingSpaceXLaunches (limit : Nat) (resp : FetchOutcome (List SpaceXLaunch)) :
    ProviderCall (List SpaceXLaunch) :=
  match resp with
  | .success launches => ⟨some (SPACEX_BASE_URL ++ "/launches/upcoming"), [], launches.take limit⟩
  | _ => ⟨some (SPACEX_BASE_URL ++ "/launches/upcoming"),
          ["Error fetching upcoming SpaceX launches:"], []⟩

/-- `getSpaceXRockets()`. -/
def getSpaceXRockets (resp : FetchOutcome (List SpaceXRocket)) :
    ProviderCall (List SpaceXRocket) :=
  match resp with
  | .success rs => ⟨some (SPACEX_BASE_URL ++ "/rockets"), [], rs⟩
  | _ => ⟨some (SPACEX_BASE_URL ++ "/rockets"), ["Error fetching SpaceX rockets:"], []⟩

/-- `getPastSpaceXLaunches(limit)`: `launches.slice(-limit).reverse()` on
success, `[]` on failure. -/
def getPastSpaceXLaunches (limit : Nat) (resp : FetchOutcome (List SpaceXLaunch)) :
    ProviderCall (List SpaceXLaunch) :=
  match resp with
  | .success launches => ⟨some (SPACEX_BASE_URL ++ "/launches/past"), [],
      (jsSliceLast limit launches).reverse⟩
  | _ => ⟨some (SPACEX_BASE_URL ++ "/launches/past"),
          ["Error fetching past SpaceX launches:"], []⟩

/-- `getISROSpacecrafts()`: `data.spacecrafts || []` on success. -/
def getISROSpacecrafts (resp : FetchOutcome (IsroPayload ISROSpacecraft)) :
    ProviderCall (List ISROSpacecraft) :=
  match resp with
  | .success d => ⟨some (ISRO_BASE_URL ++ "/spacecrafts"), [], d.getD []⟩
  | _ => ⟨some (ISRO_BASE_URL ++ "/spacecrafts"), ["Error fetching ISRO spacecrafts:"], []⟩

/-- `getISROLaunchVehicles()`: `data.launchers || []` on success. -/
def getISROLaunchVehicles (resp : FetchOutcome (IsroPayload ISROLaunchVehicle)) :
    ProviderCall (List ISROLaunchVehicle) :=
  match resp with
  | .success d => ⟨some (ISRO_BASE_URL ++ "/launchers"), [], d.getD []⟩
  | _ => ⟨some (ISRO_BASE_URL ++ "/launchers"), ["Error fetching ISRO launch vehicles:"], []⟩

/-- `getISROCentres()`: `data.centres || []` on success. -/
def getISROCentres (resp : FetchOutcome (IsroPayload ISROCentre)) :
    ProviderCall (List ISROCentre) :=
  match resp with
  | .success d => ⟨some (ISRO_BASE_URL ++ "/centres"), [], d.getD []⟩
  | _ => ⟨some (ISRO_BASE_URL ++ "/centres"), ["Error fetching ISRO centres:"], []⟩

/-- `getNasaAPOD()`: key is `process.env.NASA_API_KEY || "DEMO_KEY"`; the
fetch is always attempted, and only a failed transport outcome yields
`null`. -/
def getNasaAPOD (apiKey : Option String) (resp : FetchOutcome NasaAPOD) :
    ProviderCall (Option NasaAPOD) :=
  let key := jsOrElse apiKey "DEMO_KEY"
  match resp with
  | .success a => ⟨some (nasaApodUrl key), [], some a⟩
  | _ => ⟨some (nasaApodUrl key), ["Error fetching NASA APOD:"], none⟩

/-! ## Chat route (getSpaceContext, ATHEY_SYSTEM_PROMPT, POST) -/

/-- Header line the route always prepends to the context string. -/
def contextHeader : String :=
  "\n\n## REAL-TIME SPACE DATA (Use this for accurate responses):\n"

/-- The ISS section of the context (route line 28).  `toFixed(4)` on the
coordinates, `toFixed(2)` on the altitude, `toISOString` on
`timestamp * 1000`. -/
def issSection (p : SatellitePosition) : String :=
  "\n### ISS Current Position:\n- Latitude: " ++ decToFixed p.satlatitude 4 ++
    "°\n- Longitude: " ++ decToFixed p.satlongitude 4 ++
    "°\n- Altitude: " ++ decToFixed p.sataltitude 2 ++
    " km\n- Updated: " ++ isoFromMillis (p.timestamp * 1000) ++ "\n"

/-- The latest-launch section (route line 32).  `fmt` models the
locale-dependent `new Date(s).toLocaleDateString()` of the runtime. -/
def latestSection (fmt : String → String) (l : SpaceXLaunch) : String :=
  "\n### Latest SpaceX Launch:\n- Mission: " ++ l.name ++
    "\n- Flight #: " ++ toString l.flight_number ++
    "\n- Date: " ++ fmt l.date_utc ++
    "\n- Success: " ++
    (match l.success with
      | none => "Pending"
      | some true => "Yes"
      | some false => "No") ++ "\n"

/-- The upcoming-launches section (route lines 36-39): a heading followed
by one numbered line per launch, in list order. -/
def upcomingSection (fmt : String → String) (ls : List SpaceXLaunch) : String :=
  "\n### Upcoming SpaceX Launches:\n" ++
    (ls.enum.map (fun e =>
      toString (e.1 + 1) ++ ". " ++ e.2.name ++ " - " ++ fmt e.2.date_utc ++ "\n")).foldl
      (· ++ ·) ""

/-- The APOD section (route line 43). -/
def apodSection (a : NasaAPOD) : String :=
  "\n### NASA Astronomy Picture of the Day:\n- Title: " ++ a.title ++
    "\n- Date: " ++ a.date ++ "\n"

/-- Rendering body of `getSpaceContext` (route lines 25-46), as a function
of the four already-joined provider results: the header, then one section
per truthy result, appended in the fixed source order. -/
def getSpaceContext (fmt : String → String) (iss : Option SatellitePosition)
    (latestLaunch : Option SpaceXLaunch) (upcomingLaunches : List SpaceXLaunch)
    (apod : Option NasaAPOD) : String :=
  let context := contextHeader
  let context := match iss with
    | some p => context ++ issSection p
    | none => context
  let context := match latestLaunch with
    | some l => context ++ latestSection fmt l
    | none => context
  let context := if 0 < upcomingLaunches.length then context ++ upcomingSection fmt upcomingLaunches
    else context
  let context := match apod with
    | some a => context ++ apodSection a
    | none => context
  context

/-- `getSpaceContext` from the transport up (route lines 18-23): the
`Promise.all` of the four provider calls, then the rendering body. -/
def getSpaceContextFromFetches (fmt : String → String) (n2yoKey : Option String)
    (issResp : FetchOutcome N2yoPositionsPayload) (latestResp : FetchOutcome SpaceXLaunch)
    (upcomingResp : FetchOutcome (List SpaceXLaunch)) (nasaKey : Option String)
    (apodResp : FetchOutcome NasaAPOD) : String :=
  getSpaceContext fmt (getISSPosition n2yoKey issResp).result
    (getLatestSpaceXLaunch latestResp).result
    (getUpcomingSpaceXLaunches 3 upcomingResp).result
    (getNasaAPOD nasaKey apodResp).result

/-- `export const maxDuration = 120` of the route: the platform-level
bound on the whole request, enforced outside `getSpaceContext`. -/
def maxDuration : Nat := 120

def ATHEY_SYSTEM_PROMPT : String :=
  "You are **Athey**, the AI assistant for Atheron - specializing in STEM (Science, Technology, Engineering, Mathematics) with a special focus on space and cosmos.\n" ++
  "\n" ++
  "## Your Scope\n" ++
  "You discuss topics related to:\n" ++
  "- **Space & Cosmos**: NASA, ISRO, SpaceX, ESA missions, satellites, ISS, astronomy, astrophysics\n" ++
  "- **Science**: Physics, chemistry, biology, environmental science, scientific discoveries\n" ++
  "- **Technology**: Computer science, AI/ML, programming, cybersecurity, electronics\n" ++
  "- **Engineering**: Aerospace, mechanical, electrical, civil, robotics, materials science\n" ++
  "- **Mathematics**: Algebra, calculus, statistics, geometry, number theory, applied math\n" ++
  "\n" ++
  "## Off-Topic Response Protocol\n" ++
  "If asked about non-STEM topics (entertainment, sports, lifestyle, politics, etc.):\n" ++
  "1. Politely acknowledge the question\n" ++
  "2. Explain you\x27re specialized for STEM topics\n" ++
  "3. Suggest a STEM-related alternative\n" ++
  "Example: \"I\x27m Athey, your STEM companion! That topic is outside my expertise, but I\x27d love to help you explore science, tech, engineering, or math. What would you like to learn?\"\n" ++
  "\n" ++
  "## Response Format\n" ++
  "1. Use the REAL-TIME DATA provided in context when relevant\n" ++
  "2. Present information clearly with relevant details\n" ++
  "3. Add interesting context or related facts\n" ++
  "4. For calculations, use LaTeX: $inline$ or $$block$$\n" ++
  "\n" ++
  "## Sources\n" ++
  "At the END of EVERY response, include 2-4 relevant sources in this EXACT format (the format is important for parsing):\n" ++
  "\n" ++
  "<!-- SOURCES_START -->\n" ++
  "[\x7b\"domain\":\"nasa.gov\",\"title\":\"Source Title Here\",\"url\":\"https://example.com\",\"description\":\"Brief one-line description\"\x7d]\n" ++
  "<!-- SOURCES_END -->\n" ++
  "\n" ++
  "Example sources format:\n" ++
  "<!-- SOURCES_START -->\n" ++
  "[\x7b\"domain\":\"science.nasa.gov\",\"title\":\"TCM: Trajectory Correction Maneuver\",\"url\":\"https://science.nasa.gov/tcm\",\"description\":\"NASA\x27s guide to spacecraft course corrections\"\x7d,\x7b\"domain\":\"esa.int\",\"title\":\"Spacecraft Navigation\",\"url\":\"https://www.esa.int/navigation\",\"description\":\"ESA\x27s explanation of deep space navigation\"\x7d]\n" ++
  "<!-- SOURCES_END -->\n" ++
  "\n" ++
  "## Your Personality\n" ++
  "- Enthusiastic about space and cosmos\n" ++
  "- Professional but approachable\n" ++
  "- Names itself: \"Athey\"\n" ++
  "- Never guesses satellite positions - uses real data!\n" ++
  "\n" ++
  "Remember: You orbit the cosmos domain ONLY. Stay in your lane, but make it stellar! 🚀"

/-- `POST` line 101: `ATHEY_SYSTEM_PROMPT + spaceContext`. -/
def composeSystemPrompt (spaceContext : String) : String :=
  ATHEY_SYSTEM_PROMPT ++ spaceContext

/-! ## Timing model of the concurrent fan-out -/

/-- A value that becomes available `duration` time units after the fan-out
starts. -/
structure Timed (α : Type) where
  duration : Nat
  value : α

/-- `Promise.all` over four independently started promises: resolves with
all four values once the slowest resolves.  No branch is cancelled,
retried or replaced on timeout. -/
def promiseAll4 {α β γ δ : Type} (a : Timed α) (b : Timed β) (c : Timed γ) (d : Timed δ) :
    Timed (α × β × γ × δ) :=
  ⟨max (max a.duration b.duration) (max c.duration d.duration),
    (a.value, b.value, c.value, d.value)⟩

/-- `getSpaceContext` with the timing of its `Promise.all` made explicit:
the rendered string is available when the slowest provider resolves. -/
def getSpaceContextTimed (fmt : String → String) (iss : Timed (Option SatellitePosition))
    (latestLaunch : Timed (Option SpaceXLaunch)) (upcomingLaunches : Timed (List SpaceXLaunch))
    (apod : Timed (Option NasaAPOD)) : Timed String :=
  let joined := promiseAll4 iss latestLaunch upcomingLaunches apod
  ⟨joined.duration,
    getSpaceContext fmt joined.value.1 joined.value.2.1 joined.value.2.2.1 joined.value.2.2.2⟩

/-- One optional section: the rendered text when the result is `Present`,
the empty string when `Absent`. -/
def optSection {α : Type} (render : α → String) (x : Option α) : String :=
  match x with
  | some v => render v
  | none => ""

/-- Chronological order of two launches, read off their ISO-8601 UTC date
strings (on which lexicographic and chronological order agree). -/
def launchDateLe (a b : SpaceXLaunch) : Prop :=
  lexLe a.date_utc.data b.date_utc.data = true

instance : DecidableRel launchDateLe := fun a b => by
  unfold launchDateLe
  infer_instance

/-! ## Concrete fixtures -/

/-- The fixed mock satellite payload of the spec: lat 51.5074,
lon -0.1278, alt 408.0, ts 1700000000. -/
def issFixture : SatellitePosition :=
  ⟨25544, "SPACE STATION", ⟨515074, 4⟩, ⟨-1278, 4⟩, ⟨4080, 1⟩, ⟨0, 0⟩, ⟨0, 0⟩, 1700000000⟩

/-- A launch dated in 2030. -/
def launchFixtureA : SpaceXLaunch :=
  ⟨"idA", "Mission A", "2030-01-01T00:00:00.000Z", "2030-01-01T00:00:00+00:00", none, true,
    none, ⟨⟨none, none⟩, none, none, none⟩, "rocketA", 300⟩

/-- A launch dated in 2020. -/
def launchFixtureB : SpaceXLaunch :=
  ⟨"idB", "Mission B", "2020-01-01T00:00:00.000Z", "2020-01-01T00:00:00+00:00", some true, false,
    none, ⟨⟨none, none⟩, none, none, none⟩, "rocketB", 100⟩

/-! ## Helper lemmas -/

theorem append_ne_left_of_len_pos (s t : String) (h : 0 < t.length) : s ++ t ≠ s := by
  intro he
  have h2 := congrArg String.length he
  rw [String.length_append] at h2
  omega

theorem issSection_length_pos (p : SatellitePosition) : 0 < (issSection p).length := by
  have h : 0 < ("\n### ISS Current Position:\n- Latitude: " : String).length := by decide
  simp only [issSection, String.length_append]
  omega

theorem latestSection_length_pos (fmt : String → String) (l : SpaceXLaunch) :
    0 < (latestSection fmt l).length := by
  have h : 0 < ("\n### Latest SpaceX Launch:\n- Mission: " : String).length := by decide
  simp only [latestSection, String.length_append]
  omega

theorem upcomingSection_length_pos (fmt : String → String) (ls : List SpaceXLaunch) :
    0 < (upcomingSection fmt ls).length := by
  have h : 0 < ("\n### Upcoming SpaceX Launches:\n" : String).length := by decide
  simp only [upcomingSection, String.length_append]
  omega

theorem apodSection_length_pos (a : NasaAPOD) : 0 < (apodSection a).length := by
  have h : 0 < ("\n### NASA Astronomy Picture of the Day:\n- Title: " : String).length := by decide
  simp only [apodSection, String.length_append]
  omega

/-! ## Claim theorems -/

/-- C5: prompt composition is deterministic pure concatenation: for every
context string the composed instruction is exactly the static policy text
followed by the context (so the policy is a byte-exact prefix), and equal
inputs give equal outputs — the composer consults nothing else. -/
theorem composePureConcat (ctx : String) :
    composeSystemPrompt ctx = ATHEY_SYSTEM_PROMPT ++ ctx
    ∧ (composeSystemPrompt ctx).data = ATHEY_SYSTEM_PROMPT.data ++ ctx.data
    ∧ ∀ ctx2 : String, ctx2 = ctx → composeSystemPrompt ctx2 = composeSystemPrompt ctx :=
  ⟨rfl, String.data_append _ _, fun _ h => by rw [h]⟩

/-- C5 witness: the composition evaluated at the header-only context. -/
theorem composePureConcat_witness :
    composeSystemPrompt contextHeader = ATHEY_SYSTEM_PROMPT ++ contextHeader
    ∧ (contextHeader = contextHeader
        → composeSystemPrompt contextHeader = composeSystemPrompt contextHeader) :=
  ⟨(composePureConcat contextHeader).1, fun h => (composePureConcat contextHeader).2.2 _ h⟩

/-- C7: with no `N2YO_API_KEY` in the environment, both N2YO clients log
the condition, make no outbound request (`requestUrl = none`) and return
the `Absent` sentinel, for every transport outcome and every argument. -/
theorem n2yoClientsAbsentKeyNoFetch (noradId seconds : Nat)
    (o1 : FetchOutcome N2yoPositionsPayload) (lat lng : DecNum) (radius cat : Nat)
    (o2 : FetchOutcome N2yoAbovePayload) :
    getSatellitePosition noradId seconds none o1 = ⟨none, ["N2YO_API_KEY not set"], none⟩
    ∧ getSatellitesAbove lat lng radius cat none o2 = ⟨none, ["N2YO_API_KEY not set"], none⟩ :=
  ⟨rfl, rfl⟩

/-- C8: with no `NASA_API_KEY` in the environment, `getNasaAPOD` still
fetches, using the shared demo credential in the request URL, and returns
`Absent` exactly when that request has a failed transport outcome. -/
theorem nasaApodDemoKeyFallback (resp : FetchOutcome NasaAPOD) :
    (getNasaAPOD none resp).requestUrl = some (nasaApodUrl "DEMO_KEY")
    ∧ (getNasaAPOD (some "") resp).requestUrl = some (nasaApodUrl "DEMO_KEY")
    ∧ ((getNasaAPOD none resp).result = none ↔ resp.isSuccess = false) := by
  cases resp <;> simp [getNasaAPOD, jsOrElse, FetchOutcome.isSuccess]

/-- C9: on the fixed mock payload (lat 51.5074, lon -0.1278, alt 408.0,
ts 1700000000) the rendered ISS section is exactly the fixed-format text,
containing the latitude and longitude to exactly 4 decimal places and the
ISO date string computed from `timestamp * 1000` milliseconds; the section
appears after the header in the rendered context. -/
theorem issSectionFixedPayload (fmt : String → String) :
    issSection issFixture =
      "\n### ISS Current Position:\n- Latitude: 51.5074°\n- Longitude: -0.1278°\n- Altitude: 408.00 km\n- Updated: 2023-11-14T22:13:20.000Z\n"
    ∧ (∃ a b : String, issSection issFixture = a ++ "51.5074" ++ b)
    ∧ (∃ a b : String, issSection issFixture = a ++ "-0.1278" ++ b)
    ∧ (∃ a b : String,
        issSection issFixture = a ++ isoFromMillis (issFixture.timestamp * 1000) ++ b)
    ∧ getSpaceContext fmt (some issFixture) none [] none =
        contextHeader ++ issSection issFixture := by
  refine ⟨by decide, ?_, ?_, ?_, rfl⟩
  · exact ⟨"\n### ISS Current Position:\n- Latitude: ",
      "°\n- Longitude: -0.1278°\n- Altitude: 408.00 km\n- Updated: 2023-11-14T22:13:20.000Z\n",
      by decide⟩
  · exact ⟨"\n### ISS Current Position:\n- Latitude: 51.5074°\n- Longitude: ",
      "°\n- Altitude: 408.00 km\n- Updated: 2023-11-14T22:13:20.000Z\n", by decide⟩
  · exact ⟨"\n### ISS Current Position:\n- Latitude: 51.5074°\n- Longitude: -0.1278°\n- Altitude: 408.00 km\n- Updated: ",
      "\n", by decide⟩

/-- C3 counterexample: a fan-out in which the ISS provider resolves only
after 1000000 time units while the three siblings resolve after 1 unit.
The aggregation resolves at 1000000 — far beyond the 120-unit bound — and
the slow provider is still `Present` in the output, so no per-call
deadline converts it to `Absent` and the aggregation does not return
within any deadline plus a small epsilon. -/
theorem noPerCallDeadlineInFanout :
    (getSpaceContextTimed (fun s => s) ⟨1000000, some issFixture⟩ ⟨1, none⟩ ⟨1, []⟩
        ⟨1, none⟩).duration = 1000000
    ∧ maxDuration <
        (getSpaceContextTimed (fun s => s) ⟨1000000, some issFixture⟩ ⟨1, none⟩ ⟨1, []⟩
          ⟨1, none⟩).duration
    ∧ (getSpaceContextTimed (fun s => s) ⟨1000000, some issFixture⟩ ⟨1, none⟩ ⟨1, []⟩
          ⟨1, none⟩).value = contextHeader ++ issSection issFixture := by
  refine ⟨rfl, by decide, rfl⟩

/-- C3 (amended): the fan-out is concurrent with per-branch isolation, but
there is no per-call deadline: the aggregation resolves exactly when the
slowest provider resolves (the maximum of the four durations), and every
provider's value — however late — is passed through to the renderer, never
replaced by `Absent`; the rendered string is independent of the four
durations.  The only time bound is the route-level `maxDuration = 120`
enforced by the platform outside this function. -/
theorem fanoutJoinsAllProviders (fmt : String → String) (t1 t2 t3 t4 : Nat)
    (iss : Option SatellitePosition) (latestLaunch : Option SpaceXLaunch)
    (upcomingLaunches : List SpaceXLaunch) (apod : Option NasaAPOD) :
    (getSpaceContextTimed fmt ⟨t1, iss⟩ ⟨t2, latestLaunch⟩ ⟨t3, upcomingLaunches⟩
        ⟨t4, apod⟩).duration = max (max t1 t2) (max t3 t4)
    ∧ (getSpaceContextTimed fmt ⟨t1, iss⟩ ⟨t2, latestLaunch⟩ ⟨t3, upcomingLaunches⟩
        ⟨t4, apod⟩).value = getSpaceContext fmt iss latestLaunch upcomingLaunches apod
    ∧ maxDuration = 120 :=
  ⟨rfl, rfl, rfl⟩

/-- C1 counterexample: with every provider `Absent` (here: both keys unset
and every fetch a network failure) the built context is the fixed header
line, not the empty string, and the composed instruction is the policy
text followed by that header — not byte-equal to the policy text alone. -/
theorem allAbsentContextNotEmpty :
    getSpaceContextFromFetches (fun s => s) none FetchOutcome.networkFailure
        FetchOutcome.networkFailure FetchOutcome.networkFailure none
        FetchOutcome.networkFailure = contextHeader
    ∧ getSpaceContextFromFetches (fun s => s) none FetchOutcome.networkFailure
        FetchOutcome.networkFailure FetchOutcome.networkFailure none
        FetchOutcome.networkFailure ≠ ""
    ∧ composeSystemPrompt
        (getSpaceContextFromFetches (fun s => s) none FetchOutcome.networkFailure
          FetchOutcome.networkFailure FetchOutcome.networkFailure none
          FetchOutcome.networkFailure) ≠ ATHEY_SYSTEM_PROMPT := by
  refine ⟨rfl, by decide, ?_⟩
  show ATHEY_SYSTEM_PROMPT ++ contextHeader ≠ ATHEY_SYSTEM_PROMPT
  exact append_ne_left_of_len_pos _ _ (by decide)

/-- C1 (amended): if every selected provider returns `Absent`, the
aggregation does not fail: it returns the context consisting of the fixed
header line alone (no data sections, but not the empty string), and the
composed instruction is the static policy text with exactly that header
appended.  The instruction equals the bare policy text only in the
unreachable catch branch, where `getSpaceContext` returns `""`. -/
theorem allAbsentContextIsHeaderOnly (fmt : String → String)
    (n2yoKey nasaKey : Option String) (issResp : FetchOutcome N2yoPositionsPayload)
    (latestResp : FetchOutcome SpaceXLaunch) (upcomingResp : FetchOutcome (List SpaceXLaunch))
    (apodResp : FetchOutcome NasaAPOD)
    (h1 : (getISSPosition n2yoKey issResp).result = none)
    (h2 : (getLatestSpaceXLaunch latestResp).result = none)
    (h3 : (getUpcomingSpaceXLaunches 3 upcomingResp).result = [])
    (h4 : (getNasaAPOD nasaKey apodResp).result = none) :
    getSpaceContextFromFetches fmt n2yoKey issResp latestResp upcomingResp nasaKey apodResp =
      contextHeader
    ∧ composeSystemPrompt
        (getSpaceContextFromFetches fmt n2yoKey issResp latestResp upcomingResp nasaKey
          apodResp) = ATHEY_SYSTEM_PROMPT ++ contextHeader := by
  have hctx : getSpaceContextFromFetches fmt n2yoKey issResp latestResp upcomingResp nasaKey
      apodResp = contextHeader := by
    unfold getSpaceContextFromFetches
    rw [h1, h2, h3, h4]
    rfl
  exact ⟨hctx, by rw [hctx]; rfl⟩

/-- C1 witness: the amended theorem applied at concrete all-`Absent`
inputs. -/
theorem allAbsentContextIsHeaderOnly_witness :
    ((getISSPosition none FetchOutcome.networkFailure).result = none
      ∧ (getLatestSpaceXLaunch FetchOutcome.networkFailure).result = none
      ∧ (getUpcomingSpaceXLaunches 3 FetchOutcome.networkFailure).result = []
      ∧ (getNasaAPOD none FetchOutcome.networkFailure).result = none)
    ∧ getSpaceContextFromFetches (fun s => s) none FetchOutcome.networkFailure
        FetchOutcome.networkFailure FetchOutcome.networkFailure none
        FetchOutcome.networkFailure = contextHeader :=
  ⟨⟨rfl, rfl, rfl, rfl⟩,
    (allAbsentContextIsHeaderOnly (fun s => s) none none FetchOutcome.networkFailure
      FetchOutcome.networkFailure FetchOutcome.networkFailure FetchOutcome.networkFailure
      rfl rfl rfl rfl).1⟩

/-- C4: whenever at least one provider result is `Present`, the rendered
context is the header followed by exactly the sections of the `Present`
results — each in its fixed key/value layout — in the fixed priority
order ISS position, latest launch, upcoming launches, daily image; the
rendered string does not depend on the providers' completion times, so
identical upstream data gives an identical block, and the block differs
from the bare header. -/
theorem contextSectionsFixedPriorityOrder (fmt : String → String) (d1 d2 d3 d4 : Nat)
    (iss : Option SatellitePosition) (latestLaunch : Option SpaceXLaunch)
    (upcomingLaunches : List SpaceXLaunch) (apod : Option NasaAPOD)
    (h : iss.isSome = true ∨ latestLaunch.isSome = true ∨ 0 < upcomingLaunches.length
      ∨ apod.isSome = true) :
    (getSpaceContextTimed fmt ⟨d1, iss⟩ ⟨d2, latestLaunch⟩ ⟨d3, upcomingLaunches⟩
        ⟨d4, apod⟩).value = getSpaceContext fmt iss latestLaunch upcomingLaunches apod
    ∧ getSpaceContext fmt iss latestLaunch upcomingLaunches apod =
        contextHeader ++ optSection issSection iss
          ++ optSection (latestSection fmt) latestLaunch
          ++ (if 0 < upcomingLaunches.length then upcomingSection fmt upcomingLaunches else "")
          ++ optSection apodSection apod
    ∧ getSpaceContext fmt iss latestLaunch upcomingLaunches apod ≠ contextHeader := by
  have hdecomp : getSpaceContext fmt iss latestLaunch upcomingLaunches apod =
      contextHeader ++ optSection issSection iss
        ++ optSection (latestSection fmt) latestLaunch
        ++ (if 0 < upcomingLaunches.length then upcomingSection fmt upcomingLaunches else "")
        ++ optSection apodSection apod := by
    rcases iss with _ | p <;> rcases latestLaunch with _ | l <;> rcases apod with _ | a <;>
      rcases upcomingLaunches with _ | ⟨x, xs⟩ <;>
      simp [getSpaceContext, optSection, String.append_empty]
  have hne : getSpaceContext fmt iss latestLaunch upcomingLaunches apod ≠ contextHeader := by
    intro hEq
    rw [hdecomp] at hEq
    have hlen := congrArg String.length hEq
    simp only [String.length_append] at hlen
    rcases h with hi | hl | hu | ha
    · obtain ⟨p, hp⟩ := Option.isSome_iff_exists.mp hi
      rw [hp] at hlen
      have := issSection_length_pos p
      simp only [optSection] at hlen
      omega
    · obtain ⟨l, hl2⟩ := Option.isSome_iff_exists.mp hl
      rw [hl2] at hlen
      have := latestSection_length_pos fmt l
      simp only [optSection] at hlen
      omega
    · rw [if_pos hu] at hlen
      have := upcomingSection_length_pos fmt upcomingLaunches
      omega
    · obtain ⟨a, ha2⟩ := Option.isSome_iff_exists.mp ha
      rw [ha2] at hlen
      have := apodSection_length_pos a
      simp only [optSection] at hlen
      omega
  exact ⟨rfl, hdecomp, hne⟩

/-- C4 witness: the theorem applied with only the ISS provider `Present`. -/
theorem contextSectionsFixedPriorityOrder_witness :
    ((some issFixture : Option SatellitePosition).isSome = true
      ∨ (none : Option SpaceXLaunch).isSome = true ∨ 0 < ([] : List SpaceXLaunch).length
      ∨ (none : Option NasaAPOD).isSome = true)
    ∧ getSpaceContext (fun s => s) (some issFixture) none [] none =
        contextHeader ++ optSection issSection (some issFixture)
          ++ optSection (latestSection (fun s => s)) none
          ++ (if 0 < ([] : List SpaceXLaunch).length
              then upcomingSection (fun s => s) [] else "")
          ++ optSection apodSection none :=
  ⟨Or.inl rfl,
    (contextSectionsFixedPriorityOrder (fun s => s) 0 0 0 0 (some issFixture) none [] none
      (Or.inl rfl)).2.1⟩

/-- C6 counterexample: the launch-list clients neither sort nor filter.
When the upcoming endpoint returns a 2030-dated launch before a 2020-dated
one, `getUpcomingSpaceXLaunches 2` returns them in that order, which is
not ascending by date; and `getPastSpaceXLaunches 0` returns the whole
fetched list (JS `slice(-0)` is `slice(0)`), not at most 0 launches. -/
theorem launchListClientsDoNotSort :
    (getUpcomingSpaceXLaunches 2
        (FetchOutcome.success [launchFixtureA, launchFixtureB])).result =
      [launchFixtureA, launchFixtureB]
    ∧ ¬ launchDateLe launchFixtureA launchFixtureB
    ∧ (getPastSpaceXLaunches 0 (FetchOutcome.success [launchFixtureB])).result =
        [launchFixtureB]
    ∧ ¬ (getPastSpaceXLaunches 0
          (FetchOutcome.success [launchFixtureB])).result.length ≤ 0 := by
  refine ⟨by decide, by decide, by decide, by decide⟩

/-- C6 (amended): the clients only truncate the fetched list, relying on
the upstream order.  For every fetched list and a positive limit:
`getUpcomingSpaceXLaunches limit` returns the first `limit` elements in
upstream order (at most `limit`, and date-ascending whenever the fetched
list is); `getPastSpaceXLaunches limit` returns the last `limit` elements
reversed (at most `limit`, and date-descending — most recent first —
whenever the fetched list is date-ascending).  For `limit = 0` the past
client returns the entire fetched list reversed. -/
theorem launchListClientsTruncate (lim : Nat) (ls : List SpaceXLaunch)
    (hasc : ls.Pairwise launchDateLe) (hpos : 0 < lim) :
    (getUpcomingSpaceXLaunches lim (FetchOutcome.success ls)).result = ls.take lim
    ∧ (getUpcomingSpaceXLaunches lim (FetchOutcome.success ls)).result.length ≤ lim
    ∧ (getUpcomingSpaceXLaunches lim (FetchOutcome.success ls)).result.Pairwise launchDateLe
    ∧ (getPastSpaceXLaunches lim (FetchOutcome.success ls)).result =
        (ls.drop (ls.length - lim)).reverse
    ∧ (getPastSpaceXLaunches lim (FetchOutcome.success ls)).result.length ≤ lim
    ∧ (getPastSpaceXLaunches lim (FetchOutcome.success ls)).result.Pairwise
        (flip launchDateLe)
    ∧ (getPastSpaceXLaunches 0 (FetchOutcome.success ls)).result = ls.reverse := by
  refine ⟨rfl, ?_, ?_, ?_, ?_, ?_, ?_⟩
  · show (ls.take lim).length ≤ lim
    rw [List.length_take]
    omega
  · exact hasc.sublist (List.take_sublist lim ls)
  · show (jsSliceLast lim ls).reverse = (ls.drop (ls.length - lim)).reverse
    rw [jsSliceLast, if_neg (by omega)]
  · show (jsSliceLast lim ls).reverse.length ≤ lim
    rw [jsSliceLast, if_neg (by omega), List.length_reverse, List.length_drop]
    omega
  · show (jsSliceLast lim ls).reverse.Pairwise (flip launchDateLe)
    rw [jsSliceLast, if_neg (by omega)]
    exact List.pairwise_reverse.mpr (hasc.sublist (List.drop_sublist _ ls))
  · show (jsSliceLast 0 ls).reverse = ls.reverse
    rw [jsSliceLast, if_pos rfl]

/-- C6 witness: the amended theorem applied at a two-element ascending
fetched list and limit 1. -/
theorem launchListClientsTruncate_witness :
    ([launchFixtureB, launchFixtureA].Pairwise launchDateLe ∧ 0 < 1)
    ∧ (getUpcomingSpaceXLaunches 1
        (FetchOutcome.success [launchFixtureB, launchFixtureA])).result =
      [launchFixtureB, launchFixtureA].take 1 :=
  ⟨⟨by decide, by decide⟩,
    (launchListClientsTruncate 1 [launchFixtureB, launchFixtureA] (by decide) (by decide)).1⟩

/-- C2: for every provider fetch function and every non-success transport
outcome — network failure, non-2xx status, or malformed payload — the
call returns the `Absent` sentinel (`none`, or `[]` for a list-returning
provider); no exception crosses the client boundary, which the embedding
reflects by the clients being total functions of the outcome. -/
theorem providersAbsentOnTransportFailure (n2yoKey nasaKey : Option String)
    (noradId seconds : Nat) (o1 : FetchOutcome N2yoPositionsPayload)
    (lat lng : DecNum) (radius cat : Nat) (o2 : FetchOutcome N2yoAbovePayload)
    (o3 : FetchOutcome SpaceXLaunch) (lim1 lim2 : Nat)
    (o4 o5 : FetchOutcome (List SpaceXLaunch)) (o6 : FetchOutcome (List SpaceXRocket))
    (o7 : FetchOutcome (IsroPayload ISROSpacecraft))
    (o8 : FetchOutcome (IsroPayload ISROLaunchVehicle))
    (o9 : FetchOutcome (IsroPayload ISROCentre)) (o10 : FetchOutcome NasaAPOD)
    (h1 : o1.isSuccess = false) (h2 : o2.isSuccess = false) (h3 : o3.isSuccess = false)
    (h4 : o4.isSuccess = false) (h5 : o5.isSuccess = false) (h6 : o6.isSuccess = false)
    (h7 : o7.isSuccess = false) (h8 : o8.isSuccess = false) (h9 : o9.isSuccess = false)
    (h10 : o10.isSuccess = false) :
    (getSatellitePosition noradId seconds n2yoKey o1).result = none
    ∧ (getSatellitesAbove lat lng radius cat n2yoKey o2).result = none
    ∧ (getISSPosition n2yoKey o1).result = none
    ∧ (getLatestSpaceXLaunch o3).result = none
    ∧ (getUpcomingSpaceXLaunches lim1 o4).result = []
    ∧ (getPastSpaceXLaunches lim2 o5).result = []
    ∧ (getSpaceXRockets o6).result = []
    ∧ (getISROSpacecrafts o7).result = []
    ∧ (getISROLaunchVehicles o8).result = []
    ∧ (getISROCentres o9).result = []
    ∧ (getNasaAPOD nasaKey o10).result = none := by
  refine ⟨?_, ?_, ?_, ?_, ?_, ?_, ?_, ?_, ?_, ?_, ?_⟩
  · cases n2yoKey <;> cases o1 <;> simp_all [getSatellitePosition, FetchOutcome.isSuccess]
  · cases n2yoKey <;> cases o2 <;> simp_all [getSatellitesAbove, FetchOutcome.isSuccess]
  · cases n2yoKey <;> cases o1 <;>
      simp_all [getISSPosition, getSatellitePosition, FetchOutcome.isSuccess]
  · cases o3 <;> simp_all [getLatestSpaceXLaunch, FetchOutcome.isSuccess]
  · cases o4 <;> simp_all [getUpcomingSpaceXLaunches, FetchOutcome.isSuccess]
  · cases o5 <;> simp_all [getPastSpaceXLaunches, FetchOutcome.isSuccess]
  · cases o6 <;> simp_all [getSpaceXRockets, FetchOutcome.isSuccess]
  · cases o7 <;> simp_all [getISROSpacecrafts, FetchOutcome.isSuccess]
  · cases o8 <;> simp_all [getISROLaunchVehicles, FetchOutcome.isSuccess]
  · cases o9 <;> simp_all [getISROCentres, FetchOutcome.isSuccess]
  · cases o10 <;> simp_all [getNasaAPOD, FetchOutcome.isSuccess]

/-- C2 witness: the theorem applied with a network failure at every
provider (and a non-2xx status works the same way). -/
theorem providersAbsentOnTransportFailure_witness :
    ((FetchOutcome.networkFailure : FetchOutcome N2yoPositionsPayload).isSuccess = false
      ∧ (FetchOutcome.httpError 500 : FetchOutcome NasaAPOD).isSuccess = false)
    ∧ (getLatestSpaceXLaunch FetchOutcome.networkFailure).result = none :=
  ⟨⟨by decide, by decide⟩,
    (providersAbsentOnTransportFailure (some "K") none 25544 1 FetchOutcome.networkFailure
      ⟨286139, 4⟩ ⟨77209, 3⟩ 70 0 FetchOutcome.networkFailure FetchOutcome.networkFailure
      5 10 FetchOutcome.networkFailure FetchOutcome.malformedBody FetchOutcome.networkFailure
      FetchOutcome.networkFailure FetchOutcome.networkFailure FetchOutcome.networkFailure
      (FetchOutcome.httpError 500) rfl rfl rfl rfl rfl rfl rfl rfl rfl rfl).2.2.2.1⟩

/-- C10: `getISSPosition` queries the satellite-position provider with the
fixed NORAD id 25544 and returns the head of the returned positions array;
it returns `Absent` exactly when the underlying fetch returned `Absent` or
the fetch succeeded with a missing or empty positions array, so those two
situations are indistinguishable in its result. -/
theorem getISSPositionFirstOf25544 (apiKey : Option String)
    (resp : FetchOutcome N2yoPositionsPayload) :
    (getISSPosition apiKey resp).requestUrl =
      (getSatellitePosition 25544 1 apiKey resp).requestUrl
    ∧ (∀ k : String, apiKey = some k →
        (getISSPosition apiKey resp).requestUrl = some (n2yoPositionsUrl 25544 1 k))
    ∧ (getISSPosition apiKey resp).result =
        ((getSatellitePosition 25544 1 apiKey resp).result.bind
          fun r => (r.positions.getD []).head?)
    ∧ ((getISSPosition apiKey resp).result = none ↔
        ((getSatellitePosition 25544 1 apiKey resp).result = none
          ∨ ∃ r, (getSatellitePosition 25544 1 apiKey resp).result = some r
              ∧ (r.positions.getD []).head? = none)) := by
  cases apiKey <;> cases resp <;>
    simp [getISSPosition, getSatellitePosition, Option.bind]

/-- C10 witness: a provider failure and a success carrying an empty
positions array both map to `Absent`, and the request targets id 25544. -/
theorem getISSPositionFirstOf25544_witness :
    ((some "K" : Option String) = some "K"
      ∧ (getISSPosition (some "K") FetchOutcome.networkFailure).requestUrl =
          some (n2yoPositionsUrl 25544 1 "K"))
    ∧ (getISSPosition (some "K")
        (FetchOutcome.success ⟨⟨25544, "SPACE STATION", 1⟩, some []⟩)).result =
      (((getSatellitePosition 25544 1 (some "K")
          (FetchOutcome.success ⟨⟨25544, "SPACE STATION", 1⟩, some []⟩)).result).bind
        fun r => (r.positions.getD []).head?) :=
  ⟨⟨rfl, (getISSPositionFirstOf25544 (some "K") FetchOutcome.networkFailure).2.1 "K" rfl⟩,
    (getISSPositionFirstOf25544 (some "K")
      (FetchOutcome.success ⟨⟨25544, "SPACE STATION", 1⟩, some []⟩)).2.2.1⟩

end Atheron
